import Mathlib

/-!
Formal model of the `ai-video-clipper` backend clip pipeline.

This development shallowly embeds the pipeline code of the repository:

* `backend/src/services/aiProvider.ts` — the `GeminiProvider` class:
  `suggestClips`, `generateCaptions`, `extractKeywords`, `transcribe`;
* `backend/src/services/videoProcessor.ts` — `extractAudio` (the ffmpeg
  command it builds and its success/failure behaviour);
* `backend/src/db.ts` — the JSON job/clip store (`createJob`, `getJob`,
  `createClip`, `getClipsByJobId`);
* `backend/src/routes/video.ts` — `processVideoAsync` (the pipeline
  orchestrator) and the `GET /clip/:jobId/:clipId/download` handler
  (on-demand clip rendering), the latter as a small interleaving model of
  two concurrent requests.

JavaScript numbers are modelled as rationals (`ℚ`); `Math.random()` is
modelled as an explicit stream `ℕ → ℚ` of successive draws; fallible
external effects (ffmpeg runs, the AI provider) are modelled as `Except`
parameters.  JSON-serialised columns of the store are modelled
structurally.
-/

set_option maxRecDepth 8192

namespace AVC

/-! ### Data model (`backend/src/types.ts`, `aiProvider.ts`) -/

/-- One transcript segment (`Transcript.segments` element in
`aiProvider.ts`). -/
structure Segment where
  startSec : ℚ
  endSec : ℚ
  text : String
deriving DecidableEq, Inhabited

/-- A transcript: ordered list of segments (`aiProvider.ts`). -/
structure Transcript where
  segments : List Segment
deriving DecidableEq, Inhabited

/-- The clip length preset of `ClipOptions` (`types.ts`). -/
inductive ClipLengthPreset
  | short
  | medium
  | long
  | custom
deriving DecidableEq, Inhabited

/-- Aspect ratio (`types.ts`: `'9:16' | '16:9' | '1:1' | 'auto'`). -/
inductive AspectRatioKind
  | nineSixteen
  | sixteenNine
  | oneOne
  | auto
deriving DecidableEq, Inhabited

/-- Template tag (`types.ts`: `'clean' | 'creator' | 'meme'`). -/
inductive TemplateKind
  | clean
  | creator
  | meme
deriving DecidableEq, Inhabited

/-- `ClipOptions` of `types.ts`.  `clipLengthMinSec`/`clipLengthMaxSec` are
optional numbers (absent unless the preset is custom). -/
structure ClipOptions where
  timeStartSec : ℚ
  timeEndSec : ℚ
  clipLengthPreset : ClipLengthPreset
  clipLengthMinSec : Option ℚ
  clipLengthMaxSec : Option ℚ
  aspectRatio : AspectRatioKind
  template : TemplateKind
  memeHook : Bool
  gameMode : Bool
  hookTitle : Bool
  callToAction : Bool
  backgroundMusic : Bool
  captionsEnabled : Bool
  wordsPerCaption : ℚ
  highlightKeywords : Bool
  autoThumbnail : Bool
deriving DecidableEq, Inhabited

/-- One caption entry produced by `GeminiProvider.generateCaptions`. -/
structure Caption where
  startSec : ℚ
  endSec : ℚ
  text : String
  keywords : Option (List String)
deriving DecidableEq, Inhabited

/-- The score triple attached to a generated clip. -/
structure Scores where
  engagement : ℚ
  clarity : ℚ
  hook : ℚ
deriving DecidableEq, Inhabited

/-- `GeneratedClip` of `types.ts` (the fields `suggestClips` populates). -/
structure GeneratedClip where
  id : String
  title : String
  startSec : ℚ
  endSec : ℚ
  durationSec : ℚ
  aspectRatio : AspectRatioKind
  template : TemplateKind
  hasCaptions : Bool
  hasMemeHook : Bool
  scores : Scores
  captions : List Caption
  thumbnailCandidates : List ℚ
deriving DecidableEq, Inhabited

/-! ### Segmentation Engine (`GeminiProvider` in `aiProvider.ts`) -/

/-- The stop-word set of `GeminiProvider.extractKeywords`. -/
def stopWords : List String :=
  ["the", "a", "an", "and", "or", "but", "in", "on", "at", "to", "for",
   "of", "with", "by", "is", "are", "was", "were", "be", "been", "have",
   "has", "had", "do", "does", "did", "will", "would", "could", "should",
   "may", "might", "can", "this", "that", "these", "those", "i", "you",
   "he", "she", "it", "we", "they"]

/-- `GeminiProvider.extractKeywords`: lowercase, split on whitespace, keep
words longer than 3 characters that are not stop words, take the first 3. -/
def extractKeywords (text : String) : List String :=
  let words := (text.toLower.split Char.isWhitespace)
  (words.filter (fun word => word.length > 3 && !(stopWords.contains word))).take 3

/-- `GeminiProvider.generateCaptions`: each overlapping segment becomes a
caption carrying the segment's own absolute `startSec`/`endSec`/`text`,
plus keywords when `highlightKeywords` is set. -/
def generateCaptions (segments : List Segment) (options : ClipOptions) : List Caption :=
  segments.map fun seg =>
    { startSec := seg.startSec
      endSec := seg.endSec
      text := seg.text
      keywords := if options.highlightKeywords then some (extractKeywords seg.text) else none }

/-- JavaScript `x || d` on an optional number: `undefined` and `0` are
falsy and yield the default; every other number (negatives included) is
kept. -/
def jsOrDefault (v : Option ℚ) (d : ℚ) : ℚ :=
  match v with
  | none => d
  | some x => if x = 0 then d else x

/-- The `switch (options.clipLengthPreset)` of `suggestClips` resolving
`(minDuration, maxDuration)`; the custom arm is
`options.clipLengthMinSec || 10` and `options.clipLengthMaxSec || 60`. -/
def resolveDurations (options : ClipOptions) : ℚ × ℚ :=
  match options.clipLengthPreset with
  | .short => (10, 25)
  | .medium => (25, 45)
  | .long => (45, 90)
  | .custom => (jsOrDefault options.clipLengthMinSec 10, jsOrDefault options.clipLengthMaxSec 60)

/-- The clip object pushed by one loop iteration of `suggestClips`
(`clips.push({...})`).  `rand k`, `rand (k+1)`, `rand (k+2)` are the three
`Math.random()` draws for the engagement/clarity/hook scores, `k` being
the number of draws consumed so far. -/
def buildClip (options : ClipOptions) (rand : ℕ → ℚ)
    (currentStart endSec duration : ℚ) (clipIndex drawIdx : ℕ)
    (relevantSegments : List Segment) : GeneratedClip :=
  let clipText := (String.intercalate " " (relevantSegments.map (fun seg => seg.text))).take 100
  { id := "clip-" ++ toString (clipIndex + 1)
    title := "Clip " ++ toString (clipIndex + 1) ++ ": " ++ clipText.take 50 ++ "..."
    startSec := currentStart
    endSec := endSec
    durationSec := duration
    aspectRatio := options.aspectRatio
    template := options.template
    hasCaptions := options.captionsEnabled
    hasMemeHook := options.memeHook
    scores :=
      { engagement := rand drawIdx * 0.5 + 0.5
        clarity := rand (drawIdx + 1) * 0.3 + 0.7
        hook := rand (drawIdx + 2) * 0.4 + 0.6 }
    captions := if options.captionsEnabled then generateCaptions relevantSegments options else []
    thumbnailCandidates :=
      [currentStart + duration * 0.1, currentStart + duration * 0.5,
       currentStart + duration * 0.9] }

/-- The `while (currentStart < options.timeEndSec && clipIndex < 10)` loop
of `suggestClips`.  `fuel` only bounds the recursion depth: the loop guard
`clipIndex < 10` is checked exactly as in the source, and
`suggestClipsAux_fuel` below shows any `fuel ≥ 10 - clipIndex` yields the
same result, so `fuel = 10`, `clipIndex = 0` is the loop itself. -/
def suggestClipsAux (transcript : Transcript) (options : ClipOptions)
    (minDuration maxDuration : ℚ) (rand : ℕ → ℚ)
    (fuel : ℕ) (currentStart : ℚ) (clipIndex drawIdx : ℕ) : List GeneratedClip :=
  match fuel with
  | 0 => []
  | f + 1 =>
    if currentStart < options.timeEndSec ∧ clipIndex < 10 then
      let duration := min maxDuration (max minDuration (options.timeEndSec - currentStart))
      let endSec := currentStart + duration
      let relevantSegments := transcript.segments.filter
        (fun seg => decide (seg.startSec < endSec) && decide (seg.endSec > currentStart))
      if relevantSegments.length > 0 then
        buildClip options rand currentStart endSec duration clipIndex drawIdx relevantSegments
          :: suggestClipsAux transcript options minDuration maxDuration rand f
              (endSec + 5) (clipIndex + 1) (drawIdx + 3)
      else
        suggestClipsAux transcript options minDuration maxDuration rand f
          (endSec + 5) (clipIndex + 1) drawIdx
    else []

/-- `GeminiProvider.suggestClips`: resolve the duration band from the
preset, then run the emission loop from the window start. -/
def suggestClips (rand : ℕ → ℚ) (transcript : Transcript) (options : ClipOptions) :
    List GeneratedClip :=
  suggestClipsAux transcript options (resolveDurations options).1 (resolveDurations options).2
    rand 10 options.timeStartSec 0 0

/-- `GeminiProvider.transcribe`: the mock transcript, one 5-second segment
per `i < duration / 5`, the last clipped to `endSec`.  The loop count is
`⌈duration / 5⌉` since `i` ranges over integers below `duration / 5`. -/
def transcribeMock (startSec endSec : ℚ) : Transcript :=
  let duration := endSec - startSec
  let n : ℕ := (duration / 5).ceil.toNat
  { segments := (List.range n).map fun i =>
      let s := startSec + i * 5
      let e := min (s + 5) endSec
      { startSec := s, endSec := e
        text := "This is a mock transcript segment." } }

/-! ### Job store (`backend/src/db.ts`) -/

/-- `JobRow` of `db.ts`.  The `options` column holds `JSON.stringify(options)`
in the source; it is modelled structurally. -/
structure JobRow where
  id : String
  createdAt : String
  sourceType : String
  sourcePath : Option String
  sourceUrl : Option String
  options : ClipOptions
  videoDurationSec : ℚ
  providerName : String
  status : String
deriving DecidableEq, Inhabited

/-- `ClipRow` of `db.ts`.  `hasCaptions`/`hasMemeHook` are stored as `0`/`1`
numbers; the JSON-string columns (`scores`, `captionData`,
`thumbnailTimestamps`) are modelled structurally. -/
structure ClipRow where
  id : String
  jobId : String
  title : String
  startSec : ℚ
  endSec : ℚ
  durationSec : ℚ
  aspectRatio : AspectRatioKind
  template : TemplateKind
  hasCaptions : ℕ
  hasMemeHook : ℕ
  scores : Scores
  captionData : List Caption
  thumbnailTimestamps : List ℚ
  clipFilePath : Option String
deriving DecidableEq, Inhabited

/-- The in-memory JSON store (`dbData` in `db.ts`). -/
structure DbState where
  jobs : List JobRow
  clips : List ClipRow
deriving DecidableEq, Inhabited

/-- The empty store (`{ jobs: [], clips: [] }`). -/
def dbEmpty : DbState := { jobs := [], clips := [] }

/-- `db.createJob`: appends the job row (the source fills `createdAt` from
the clock; here it is part of the row supplied by the caller). -/
def createJob (db : DbState) (job : JobRow) : DbState :=
  { db with jobs := db.jobs ++ [job] }

/-- `db.getJob`: first row with the given id. -/
def getJob (db : DbState) (id : String) : Option JobRow :=
  db.jobs.find? (fun j => j.id == id)

/-- `db.createClip`: appends the clip row (the boolean-to-`0`/`1`
conversion is already reflected in `ClipRow`). -/
def createClip (db : DbState) (clip : ClipRow) : DbState :=
  { db with clips := db.clips ++ [clip] }

/-- `db.getClipsByJobId`: the job's clips sorted by ascending `startSec`
(JavaScript `Array.prototype.sort` is stable). -/
def getClipsByJobId (db : DbState) (jobId : String) : List ClipRow :=
  (db.clips.filter (fun c => c.jobId == jobId)).mergeSort
    (fun a b => a.startSec ≤ b.startSec)

/-! ### Media Extractor (`videoProcessor.ts`, `extractAudio`) -/

/-- The options a fluent-ffmpeg invocation of this code base can carry;
unset builder calls are `none`/`false`. -/
structure FfmpegCmd where
  input : String
  seekInput : Option ℚ
  duration : Option ℚ
  noVideo : Bool
  audioCodec : Option String
  audioBitrate : Option String
  output : String
deriving DecidableEq, Inhabited

/-- The ffmpeg command built by `VideoProcessor.extractAudio`: input,
`noVideo`, mp3 codec, 128k bitrate, output — and nothing else.  In
particular no `seekInput`/`duration` bound is applied: the function does
not receive a time window at all. -/
def extractAudioCmd (inputPath outputPath : String) : FfmpegCmd where
  input := inputPath
  seekInput := none
  duration := none
  noVideo := true
  audioCodec := some "mp3"
  audioBitrate := some "128k"
  output := outputPath

deriving instance DecidableEq for Except

/-- `VideoProcessor.extractAudio` as a function of the ffmpeg run's
outcome: resolves with nothing on `end`, rejects with
`Failed to extract audio: <msg>` on `error`.  The model returns the output
path on success so callers can name the artifact. -/
def extractAudio (ffmpegRun : Except String Unit) (inputPath outputPath : String) :
    Except String String :=
  match ffmpegRun with
  | .ok _ => .ok outputPath
  | .error msg => .error ("Failed to extract audio: " ++ msg)

/-! ### Pipeline Orchestrator (`routes/video.ts`, `processVideoAsync`) -/

/-- Result of one `processVideoAsync` run: either the `try` block ran to
its end, or some stage threw and the `catch` block ran (which only logs —
see `video.ts:365-368`). -/
inductive PipelineOutcome
  | completed
  | caught (msg : String)
deriving DecidableEq, Inhabited

/-- The `createClip` call of `processVideoAsync`'s persistence loop,
mapping a `GeneratedClip` to its stored row (`clipFilePath` is `null`:
clips are rendered on demand). -/
def clipToRow (jobId : String) (clip : GeneratedClip) : ClipRow where
  id := clip.id
  jobId := jobId
  title := clip.title
  startSec := clip.startSec
  endSec := clip.endSec
  durationSec := clip.durationSec
  aspectRatio := clip.aspectRatio
  template := clip.template
  hasCaptions := if clip.hasCaptions then 1 else 0
  hasMemeHook := if clip.hasMemeHook then 1 else 0
  scores := clip.scores
  captionData := clip.captions
  thumbnailTimestamps := clip.thumbnailCandidates
  clipFilePath := none

/-- `processVideoAsync` of `routes/video.ts`.  External effects are
explicit: `ffmpegAudio` is the audio-extraction ffmpeg run,
`providerInit` the `createAIProvider()` call (throws without an API key),
`transcribeResult` the provider's `transcribe` (the Gemini mock never
rejects, but the `AIProvider` interface may), `rand` the `Math.random`
stream consumed by `suggestClips`.  Any stage failure lands in the
`catch` block, which only logs the error: the job row — in particular its
`status` — is left untouched on every path (`// TODO: update job status
to failed`). -/
def processVideoAsync (jobId videoPath : String) (options : ClipOptions)
    (ffmpegAudio : Except String Unit)
    (providerInit : Except String Unit)
    (transcribeResult : Except String Transcript)
    (rand : ℕ → ℚ)
    (db : DbState) : DbState × PipelineOutcome :=
  match extractAudio ffmpegAudio videoPath ("temp/audio/" ++ jobId ++ ".mp3") with
  | .error msg => (db, .caught msg)
  | .ok _audioPath =>
    match providerInit with
    | .error msg => (db, .caught msg)
    | .ok _ =>
      match transcribeResult with
      | .error msg => (db, .caught msg)
      | .ok transcript =>
        let clips := suggestClips rand transcript options
        let db' := clips.foldl (fun acc clip => createClip acc (clipToRow jobId clip)) db
        (db', .completed)

/-! ### On-demand clip rendering
(`GET /clip/:jobId/:clipId/download` in `routes/video.ts`)

Two concurrent requests for the same clip are modelled as two threads over
the shared `clipFilePath` field of the clip row.  Each request performs,
in handler order: (1) the cache check `!clip.clipFilePath ||
!fs.existsSync(...)` — atomic, as the handler runs synchronously up to the
`await`; (2) if it missed, `await videoProcessor.createClip(...)` (the
encode) followed by `clip.clipFilePath = outputPath` and the send.  A
schedule is the interleaving of the two requests' steps. -/

/-- Phase of one download request: not yet run, past the cache check and
awaiting its own encode, or finished having streamed the given artifact
path. -/
inductive RenderPhase
  | start
  | rendering
  | finished (artifact : String)
deriving DecidableEq, Inhabited

/-- Joint state of two concurrent download requests for one clip:
the clip row's shared `clipFilePath`, each request's phase, and the number
of `videoProcessor.createClip` (encode) invocations so far. -/
structure RenderJointState where
  clipFilePath : Option String
  phase0 : RenderPhase
  phase1 : RenderPhase
  encodes : ℕ
deriving DecidableEq, Inhabited

/-- The on-demand output path `temp/clips/<clipId>.mp4` (identical for
both requests). -/
def renderOutputPath (clipId : String) : String :=
  "temp/clips/" ++ clipId ++ ".mp4"

/-- One atomic step of request `i`, mirroring the download handler: a
request at `start` performs the cache check (hit: streams the recorded
artifact; miss: proceeds to encode); a request at `rendering` completes
its encode, records `clipFilePath`, and streams it. -/
def renderStep (clipId : String) (s : RenderJointState) (i : Fin 2) : RenderJointState :=
  let phase := if i = 0 then s.phase0 else s.phase1
  let setPhase := fun (s' : RenderJointState) (p : RenderPhase) =>
    if i = 0 then { s' with phase0 := p } else { s' with phase1 := p }
  match phase with
  | .start =>
    match s.clipFilePath with
    | some p => setPhase s (.finished p)
    | none => setPhase s .rendering
  | .rendering =>
    let out := renderOutputPath clipId
    setPhase { s with clipFilePath := some out, encodes := s.encodes + 1 } (.finished out)
  | .finished _ => s

/-- Run a schedule (list of request turns) from the state where the clip
has no rendered artifact and neither request has started. -/
def runRender (clipId : String) (sched : List (Fin 2)) : RenderJointState :=
  sched.foldl (renderStep clipId) { clipFilePath := none, phase0 := .start,
                                    phase1 := .start, encodes := 0 }

/-- Baseline options value used to build the concrete inputs of the
theorems below (a `short`-preset request with all toggles off). -/
def baseOptions : ClipOptions where
  timeStartSec := 0
  timeEndSec := 3
  clipLengthPreset := .short
  clipLengthMinSec := none
  clipLengthMaxSec := none
  aspectRatio := .auto
  template := .clean
  memeHook := false
  gameMode := false
  hookTitle := false
  callToAction := false
  backgroundMusic := false
  captionsEnabled := false
  wordsPerCaption := 5
  highlightKeywords := false
  autoThumbnail := false

/-! ### Concrete inputs for counterexamples and witnesses -/

/-- A `Math.random` stream drawing `1/2` forever. -/
def rHalf : ℕ → ℚ := fun _ => 1/2

/-- A `Math.random` stream drawing `0` forever. -/
def rZero : ℕ → ℚ := fun _ => 0

/-- A transcript segment spanning far beyond any window used below. -/
def segWide : Segment := { startSec := 0, endSec := 1000, text := "s" }

/-- Transcript for the ordering counterexample. -/
def tC1 : Transcript := { segments := [segWide] }

/-- Custom preset with negative (truthy) min/max lengths and window
`[100, 200)`: the emission cursor moves backwards. -/
def oC1 : ClipOptions :=
  { baseOptions with timeStartSec := 100, timeEndSec := 200,
                     clipLengthPreset := .custom,
                     clipLengthMinSec := some (-20), clipLengthMaxSec := some (-20) }

/-- Transcript with one segment exactly covering the window `[0, 3)`. -/
def tC2 : Transcript := { segments := [{ startSec := 0, endSec := 3, text := "hi" }] }

/-- Short preset over the window `[0, 3)` — shorter than `minDur = 10`. -/
def oC2 : ClipOptions := baseOptions

/-- Transcript with one segment `[0, 100)` overlapping the clip window
from outside it on both sides. -/
def tC5 : Transcript := { segments := [{ startSec := 0, endSec := 100, text := "hi" }] }

/-- Short preset over `[10, 40)` with captions enabled. -/
def oC5 : ClipOptions :=
  { baseOptions with timeStartSec := 10, timeEndSec := 40, captionsEnabled := true }

/-- Transcript with one segment `[0, 50)`. -/
def t8 : Transcript := { segments := [{ startSec := 0, endSec := 50, text := "hello" }] }

/-- Short preset over `[0, 20)`: exactly one clip is emitted. -/
def o8 : ClipOptions := { baseOptions with timeEndSec := 20 }

/-- Short preset over the valid window `[0, 100)`. -/
def oW : ClipOptions := { baseOptions with timeEndSec := 100 }

/-- Transcript with one segment `[0, 100)`. -/
def tW : Transcript := { segments := [{ startSec := 0, endSec := 100, text := "hello" }] }

/-- Short preset over `[0, 10)` (used by the orchestrator runs). -/
def o3 : ClipOptions := { baseOptions with timeEndSec := 10 }

/-- The job row the analyze route creates before processing starts
(`status: 'processing'`). -/
def jobRow1 : JobRow :=
  { id := "job-1", createdAt := "2024-01-01T00:00:00Z", sourceType := "file",
    sourcePath := some "v.mp4", sourceUrl := none, options := o3,
    videoDurationSec := 100, providerName := "gemini", status := "processing" }

/-- Options with a degenerate time window (`start = end = 5`). -/
def oDeg : ClipOptions := { baseOptions with timeStartSec := 5, timeEndSec := 5 }

/-- Job row for the degenerate-window run. -/
def jobRowDeg : JobRow := { jobRow1 with options := oDeg }

/-- Orchestrator run where every stage succeeds but the provider returns a
transcript with zero segments. -/
def runC3 : DbState × PipelineOutcome :=
  processVideoAsync "job-1" "v.mp4" o3 (.ok ()) (.ok ()) (.ok { segments := [] })
    rHalf (createJob dbEmpty jobRow1)

/-- Orchestrator run where the audio-extraction ffmpeg run errors. -/
def runC4 : DbState × PipelineOutcome :=
  processVideoAsync "job-1" "v.mp4" o3 (.error "boom") (.ok ()) (.ok { segments := [] })
    rHalf (createJob dbEmpty jobRow1)

/-- Orchestrator run with a degenerate window and a wide transcript
segment, all external stages succeeding. -/
def runDeg : DbState × PipelineOutcome :=
  processVideoAsync "job-1" "v.mp4" oDeg (.ok ()) (.ok ()) (.ok { segments := [segWide] })
    rHalf (createJob dbEmpty jobRowDeg)

/-- The single clip emitted for `tC5`/`oC5` (window `[10, 40)`, captions
on): its window is `[10, 35)`. -/
def cW5 : GeneratedClip := (suggestClips rHalf tC5 oC5).headI

/-- The single caption of `cW5`: the segment `[0, 100)` verbatim. -/
def capW5 : Caption := cW5.captions.headI

/-! ### Loop lemmas for `suggestClipsAux` -/

/-- Embedding faithfulness: the fuel parameter is inessential.  Any fuel
of at least `10 - clipIndex` (the number of iterations the guard
`clipIndex < 10` still allows) produces the same list, so running with
`fuel = 10` from `clipIndex = 0` is exactly the source's `while` loop. -/
theorem suggestClipsAux_fuel (t : Transcript) (o : ClipOptions) (minD maxD : ℚ) (r : ℕ → ℚ) :
    ∀ f₁ f₂ (cs : ℚ) (ci di : ℕ), 10 - ci ≤ f₁ → 10 - ci ≤ f₂ →
      suggestClipsAux t o minD maxD r f₁ cs ci di =
      suggestClipsAux t o minD maxD r f₂ cs ci di := by
  intro f₁
  induction f₁ with
  | zero =>
    intro f₂ cs ci di h₁ h₂
    have hci : 10 ≤ ci := by omega
    cases f₂ with
    | zero => rfl
    | succ f₂' =>
      simp only [suggestClipsAux]
      rw [if_neg]
      intro h
      omega
  | succ f₁' ih =>
    intro f₂ cs ci di h₁ h₂
    cases f₂ with
    | zero =>
      have hci : 10 ≤ ci := by omega
      simp only [suggestClipsAux]
      rw [if_neg]
      intro h
      omega
    | succ f₂' =>
      simp only [suggestClipsAux]
      by_cases hg : cs < o.timeEndSec ∧ ci < 10
      · rw [if_pos hg, if_pos hg]
        have h₁' : 10 - (ci + 1) ≤ f₁' := by omega
        have h₂' : 10 - (ci + 1) ≤ f₂' := by omega
        split
        · rw [ih f₂' _ _ _ h₁' h₂']
        · exact ih f₂' _ _ _ h₁' h₂'
      · rw [if_neg hg, if_neg hg]

/-- The emission loop makes at most `fuel` iterations, so it emits at most
`fuel` clips. -/
theorem suggestClipsAux_length (t : Transcript) (o : ClipOptions) (minD maxD : ℚ) (r : ℕ → ℚ) :
    ∀ (f : ℕ) (cs : ℚ) (ci di : ℕ),
      (suggestClipsAux t o minD maxD r f cs ci di).length ≤ f := by
  intro f
  induction f with
  | zero => intro cs ci di; simp [suggestClipsAux]
  | succ f' ih =>
    intro cs ci di
    simp only [suggestClipsAux]
    split
    · split
      · simpa using Nat.succ_le_succ (ih _ _ _)
      · exact le_trans (ih _ _ _) (Nat.le_succ _)
    · simp

/-- Every emitted clip's score triple is three consecutive draws of the
random stream, affinely rescaled exactly as in the source. -/
theorem suggestClipsAux_scores (t : Transcript) (o : ClipOptions) (minD maxD : ℚ) (r : ℕ → ℚ) :
    ∀ (f : ℕ) (cs : ℚ) (ci di : ℕ) c, c ∈ suggestClipsAux t o minD maxD r f cs ci di →
      ∃ k, c.scores.engagement = r k * 0.5 + 0.5 ∧
           c.scores.clarity = r (k + 1) * 0.3 + 0.7 ∧
           c.scores.hook = r (k + 2) * 0.4 + 0.6 := by
  intro f
  induction f with
  | zero => intro cs ci di c hc; simp [suggestClipsAux] at hc
  | succ f' ih =>
    intro cs ci di c hc
    simp only [suggestClipsAux] at hc
    split at hc
    · split at hc
      · rcases List.mem_cons.mp hc with h | h
        · subst h
          exact ⟨di, rfl, rfl, rfl⟩
        · exact ih _ _ _ _ h
      · exact ih _ _ _ _ hc
    · simp at hc

/-- Projection: the pushed clip's `startSec` is the loop cursor. -/
theorem buildClip_startSec (o : ClipOptions) (r : ℕ → ℚ) (cs e d : ℚ) (ci di : ℕ)
    (rel : List Segment) : (buildClip o r cs e d ci di rel).startSec = cs := rfl

/-- Projection: the pushed clip's `endSec`. -/
theorem buildClip_endSec (o : ClipOptions) (r : ℕ → ℚ) (cs e d : ℚ) (ci di : ℕ)
    (rel : List Segment) : (buildClip o r cs e d ci di rel).endSec = e := rfl

/-- Projection: the pushed clip's `durationSec`. -/
theorem buildClip_durationSec (o : ClipOptions) (r : ℕ → ℚ) (cs e d : ℚ) (ci di : ℕ)
    (rel : List Segment) : (buildClip o r cs e d ci di rel).durationSec = d := rfl

/-- Projection: the pushed clip's caption list. -/
theorem buildClip_captions (o : ClipOptions) (r : ℕ → ℚ) (cs e d : ℚ) (ci di : ℕ)
    (rel : List Segment) : (buildClip o r cs e d ci di rel).captions =
      if o.captionsEnabled then generateCaptions rel o else [] := rfl

/-- Every emitted clip starts at or after the cursor position the loop was
entered with, provided `maxDuration ≥ -5` (so the cursor never moves
backwards: it advances by `duration + 5` and `duration ≥ -5` whenever the
remaining window is positive). -/
theorem suggestClipsAux_start_ge (t : Transcript) (o : ClipOptions) (minD maxD : ℚ)
    (r : ℕ → ℚ) (hmax : -5 ≤ maxD) :
    ∀ (f : ℕ) (cs : ℚ) (ci di : ℕ) c, c ∈ suggestClipsAux t o minD maxD r f cs ci di →
      cs ≤ c.startSec := by
  intro f
  induction f with
  | zero => intro cs ci di c hc; simp [suggestClipsAux] at hc
  | succ f' ih =>
    intro cs ci di c hc
    simp only [suggestClipsAux] at hc
    split at hc
    case isTrue hg =>
      have hrem : 0 < o.timeEndSec - cs := by linarith [hg.1]
      have hd : -5 ≤ min maxD (max minD (o.timeEndSec - cs)) :=
        le_min hmax (le_trans (by linarith) (le_max_right _ _))
      split at hc
      · rcases List.mem_cons.mp hc with h | h
        · subst h
          rw [buildClip_startSec]
        · have := ih _ _ _ _ h
          linarith
      · have := ih _ _ _ _ hc
        linarith
    case isFalse => simp at hc

/-- Every emitted clip's window has the shape the loop body computes:
start strictly inside the window, `durationSec` the clamp
`min maxDur (max minDur remaining)`, and `endSec = startSec + durationSec`. -/
theorem suggestClipsAux_shape (t : Transcript) (o : ClipOptions) (minD maxD : ℚ) (r : ℕ → ℚ) :
    ∀ (f : ℕ) (cs : ℚ) (ci di : ℕ) c, c ∈ suggestClipsAux t o minD maxD r f cs ci di →
      c.startSec < o.timeEndSec ∧
      c.durationSec = min maxD (max minD (o.timeEndSec - c.startSec)) ∧
      c.endSec = c.startSec + c.durationSec := by
  intro f
  induction f with
  | zero => intro cs ci di c hc; simp [suggestClipsAux] at hc
  | succ f' ih =>
    intro cs ci di c hc
    simp only [suggestClipsAux] at hc
    split at hc
    case isTrue hg =>
      split at hc
      · rcases List.mem_cons.mp hc with h | h
        · subst h
          rw [buildClip_startSec, buildClip_durationSec, buildClip_endSec]
          exact ⟨hg.1, rfl, rfl⟩
        · exact ih _ _ _ _ h
      · exact ih _ _ _ _ hc
    case isFalse => simp at hc

/-- Clips are emitted with non-decreasing starts and each clip's end is at
or before every later clip's start (the cursor jumps to `endSec + 5`),
provided `maxDuration ≥ -5`. -/
theorem suggestClipsAux_pairwise (t : Transcript) (o : ClipOptions) (minD maxD : ℚ)
    (r : ℕ → ℚ) (hmax : -5 ≤ maxD) :
    ∀ (f : ℕ) (cs : ℚ) (ci di : ℕ),
      (suggestClipsAux t o minD maxD r f cs ci di).Pairwise
        (fun a b => a.startSec ≤ b.startSec ∧ a.endSec ≤ b.startSec) := by
  intro f
  induction f with
  | zero => intro cs ci di; simp [suggestClipsAux]
  | succ f' ih =>
    intro cs ci di
    simp only [suggestClipsAux]
    split
    case isTrue hg =>
      have hrem : 0 < o.timeEndSec - cs := by linarith [hg.1]
      have hd : -5 ≤ min maxD (max minD (o.timeEndSec - cs)) :=
        le_min hmax (le_trans (by linarith) (le_max_right _ _))
      split
      · refine List.Pairwise.cons ?_ (ih _ _ _)
        intro b hb
        have hbs := suggestClipsAux_start_ge t o minD maxD r hmax _ _ _ _ _ hb
        rw [buildClip_startSec, buildClip_endSec]
        constructor <;> linarith
      · exact ih _ _ _
    case isFalse => simp

/-- Every caption of every emitted clip is a transcript segment verbatim,
and that segment satisfies the overlap test against the clip window. -/
theorem suggestClipsAux_captions (t : Transcript) (o : ClipOptions) (minD maxD : ℚ)
    (r : ℕ → ℚ) :
    ∀ (f : ℕ) (cs : ℚ) (ci di : ℕ) c, c ∈ suggestClipsAux t o minD maxD r f cs ci di →
      ∀ cap ∈ c.captions, ∃ seg ∈ t.segments,
        cap.startSec = seg.startSec ∧ cap.endSec = seg.endSec ∧ cap.text = seg.text ∧
        seg.startSec < c.endSec ∧ seg.endSec > c.startSec := by
  intro f
  induction f with
  | zero => intro cs ci di c hc; simp [suggestClipsAux] at hc
  | succ f' ih =>
    intro cs ci di c hc
    simp only [suggestClipsAux] at hc
    split at hc
    case isTrue hg =>
      split at hc
      · rcases List.mem_cons.mp hc with h | h
        · subst h
          intro cap hcap
          rw [buildClip_captions] at hcap
          split at hcap
          · obtain ⟨seg, hseg, hcapeq⟩ := List.mem_map.mp hcap
            have hseg' := List.mem_filter.mp hseg
            have hbounds : seg.startSec < cs + min maxD (max minD (o.timeEndSec - cs)) ∧
                seg.endSec > cs := by
              have := hseg'.2
              simp only [Bool.and_eq_true, decide_eq_true_eq] at this
              exact this
            refine ⟨seg, hseg'.1, ?_, ?_, ?_, ?_, ?_⟩
            · rw [← hcapeq]
            · rw [← hcapeq]
            · rw [← hcapeq]
            · rw [buildClip_endSec]; exact hbounds.1
            · rw [buildClip_startSec]; exact hbounds.2
          · simp at hcap
        · exact ih _ _ _ _ h
      · exact ih _ _ _ _ hc
    case isFalse => simp at hc

/-- Once the cursor has reached the window end the loop emits nothing. -/
theorem suggestClipsAux_eq_nil (t : Transcript) (o : ClipOptions) (minD maxD : ℚ)
    (r : ℕ → ℚ) (f : ℕ) (cs : ℚ) (ci di : ℕ) (h : ¬ cs < o.timeEndSec) :
    suggestClipsAux t o minD maxD r f cs ci di = [] := by
  cases f with
  | zero => rfl
  | succ f' =>
    simp only [suggestClipsAux]
    rw [if_neg]
    intro hg
    exact h hg.1

/-- When the remaining window is shorter than `minDuration ≤ maxDuration`,
the loop emits at most one clip: the first span already carries the cursor
past the window end. -/
theorem suggestClipsAux_length_le_one (t : Transcript) (o : ClipOptions) (minD maxD : ℚ)
    (r : ℕ → ℚ) (f : ℕ) (cs : ℚ) (ci di : ℕ)
    (hshort : o.timeEndSec - cs < minD) (hband : minD ≤ maxD) :
    (suggestClipsAux t o minD maxD r (f + 1) cs ci di).length ≤ 1 := by
  simp only [suggestClipsAux]
  split
  case isTrue hg =>
    have hdur : min maxD (max minD (o.timeEndSec - cs)) = minD := by
      rw [max_eq_left (le_of_lt hshort), min_eq_right hband]
    have hnext : ¬ cs + min maxD (max minD (o.timeEndSec - cs)) + 5 < o.timeEndSec := by
      rw [hdur]
      linarith
    split
    · rw [suggestClipsAux_eq_nil t o minD maxD r _ _ _ _ hnext]
      simp
    · rw [suggestClipsAux_eq_nil t o minD maxD r _ _ _ _ hnext]
      simp
  case isFalse => simp

/-! ### Claim theorems -/

/-- C10: `suggestClips` terminates on every input — including custom
presets with absent, negative, or reversed min/max durations, where the
cursor may fail to advance — because the loop guard `clipIndex < 10`
bounds the iteration count, so at most 10 clips are ever returned.
(Termination itself is by construction; `suggestClipsAux_fuel` shows the
fuel never truncates the loop.) -/
theorem C10_suggestClips_length_le_ten (rand : ℕ → ℚ) (t : Transcript) (o : ClipOptions) :
    (suggestClips rand t o).length ≤ 10 :=
  suggestClipsAux_length t o (resolveDurations o).1 (resolveDurations o).2 rand 10
    o.timeStartSec 0 0

/-- C9: given that every `Math.random` draw lies in `[0, 1)`, every
emitted clip's scores lie in the strict sub-ranges
`engagement ∈ [0.5, 1]`, `clarity ∈ [0.7, 1]`, `hook ∈ [0.6, 1]`; in
particular no clip is ever scored below `0.5` engagement. -/
theorem C9_score_subranges (rand : ℕ → ℚ) (t : Transcript) (o : ClipOptions)
    (hr : ∀ n, 0 ≤ rand n ∧ rand n < 1) :
    ∀ c ∈ suggestClips rand t o,
      0.5 ≤ c.scores.engagement ∧ c.scores.engagement ≤ 1 ∧
      0.7 ≤ c.scores.clarity ∧ c.scores.clarity ≤ 1 ∧
      0.6 ≤ c.scores.hook ∧ c.scores.hook ≤ 1 := by
  intro c hc
  obtain ⟨k, he, hcl, hh⟩ :=
    suggestClipsAux_scores t o (resolveDurations o).1 (resolveDurations o).2 rand 10
      o.timeStartSec 0 0 c hc
  obtain ⟨h0, h1⟩ := hr k
  obtain ⟨h0', h1'⟩ := hr (k + 1)
  obtain ⟨h0'', h1''⟩ := hr (k + 2)
  refine ⟨?_, ?_, ?_, ?_, ?_, ?_⟩
  · rw [he]; nlinarith
  · rw [he]; nlinarith
  · rw [hcl]; nlinarith
  · rw [hcl]; nlinarith
  · rw [hh]; nlinarith
  · rw [hh]; nlinarith

/-- Witness for C9 at the constant stream `1/2` and the one-clip input
`t8`/`o8`. -/
theorem C9_score_subranges_witness :
    (∀ n, 0 ≤ rHalf n ∧ rHalf n < 1) ∧
    (∀ c ∈ suggestClips rHalf t8 o8,
      0.5 ≤ c.scores.engagement ∧ c.scores.engagement ≤ 1 ∧
      0.7 ≤ c.scores.clarity ∧ c.scores.clarity ≤ 1 ∧
      0.6 ≤ c.scores.hook ∧ c.scores.hook ≤ 1) :=
  ⟨fun _ => ⟨by norm_num [rHalf], by norm_num [rHalf]⟩,
   C9_score_subranges rHalf t8 o8 (fun _ => ⟨by norm_num [rHalf], by norm_num [rHalf]⟩)⟩

/-- C8 counterexample: the scores are NOT deterministic per
(transcript, options) input — they depend on the `Math.random` draws.
With identical transcript `t8` and options `o8`, the all-zeros stream and
the all-halves stream yield different engagement scores, hence different
outputs. -/
theorem C8_counterexample :
    (suggestClips rZero t8 o8).headI.scores.engagement = 0.5 ∧
    (suggestClips rHalf t8 o8).headI.scores.engagement = 0.75 ∧
    suggestClips rZero t8 o8 ≠ suggestClips rHalf t8 o8 := by
  apply of_decide_eq_true
  with_unfolding_all rfl

/-- C8 amended: the output is a function of transcript, options AND the
random draws — two invocations agree whenever their draws agree — and
each score component lies in `[0, 1]` whenever every draw lies in
`[0, 1)`. -/
theorem C8_amended_determinism_given_draws (rand rand' : ℕ → ℚ) (t : Transcript)
    (o : ClipOptions) (hr : ∀ n, 0 ≤ rand n ∧ rand n < 1)
    (hagree : ∀ n, rand n = rand' n) :
    suggestClips rand t o = suggestClips rand' t o ∧
    ∀ c ∈ suggestClips rand t o,
      0 ≤ c.scores.engagement ∧ c.scores.engagement ≤ 1 ∧
      0 ≤ c.scores.clarity ∧ c.scores.clarity ≤ 1 ∧
      0 ≤ c.scores.hook ∧ c.scores.hook ≤ 1 := by
  have heq : rand = rand' := funext hagree
  subst heq
  refine ⟨rfl, ?_⟩
  intro c hc
  obtain ⟨k, he, hcl, hh⟩ :=
    suggestClipsAux_scores t o (resolveDurations o).1 (resolveDurations o).2 rand 10
      o.timeStartSec 0 0 c hc
  obtain ⟨h0, h1⟩ := hr k
  obtain ⟨h0', h1'⟩ := hr (k + 1)
  obtain ⟨h0'', h1''⟩ := hr (k + 2)
  refine ⟨?_, ?_, ?_, ?_, ?_, ?_⟩
  · rw [he]; nlinarith
  · rw [he]; nlinarith
  · rw [hcl]; nlinarith
  · rw [hcl]; nlinarith
  · rw [hh]; nlinarith
  · rw [hh]; nlinarith

/-- Witness for the amended C8 at `rand = rand' = rHalf`. -/
theorem C8_amended_witness :
    (∀ n, 0 ≤ rHalf n ∧ rHalf n < 1) ∧
    (suggestClips rHalf t8 o8 = suggestClips rHalf t8 o8 ∧
     ∀ c ∈ suggestClips rHalf t8 o8,
       0 ≤ c.scores.engagement ∧ c.scores.engagement ≤ 1 ∧
       0 ≤ c.scores.clarity ∧ c.scores.clarity ≤ 1 ∧
       0 ≤ c.scores.hook ∧ c.scores.hook ≤ 1) :=
  ⟨fun _ => ⟨by norm_num [rHalf], by norm_num [rHalf]⟩,
   C8_amended_determinism_given_draws rHalf rHalf t8 o8
     (fun _ => ⟨by norm_num [rHalf], by norm_num [rHalf]⟩) (fun _ => rfl)⟩

/-- C1 counterexample: with a valid window `[100, 200)` and the custom
preset `clipLengthMinSec = clipLengthMaxSec = -20` (accepted by the
analyze route's schema, which puts no lower bound on these fields), the
emitted clip starts are `100, 85, 70, …` — strictly decreasing, so the
output is not sorted by non-decreasing start time. -/
theorem C1_counterexample :
    oC1.timeStartSec < oC1.timeEndSec ∧
    ((suggestClips rHalf tC1 oC1).map (fun c => c.startSec)).take 2 = [100, 85] ∧
    ¬ ((suggestClips rHalf tC1 oC1).map (fun c => c.startSec)).Pairwise (· ≤ ·) := by
  apply of_decide_eq_true
  with_unfolding_all rfl

/-- C1 amended: for every valid window and every options value whose
resolved `maxDuration` is at least `-5` — which covers every non-custom
preset and every custom preset with non-negative lengths — the emitted
clips are sorted by non-decreasing start time and pairwise
non-overlapping.  (Only a custom preset with `clipLengthMaxSec < -5`
breaks sortedness, as `C1_counterexample` shows; non-overlap additionally
holds there vacuously since such windows are empty.) -/
theorem C1_amended_sorted_nonoverlap (rand : ℕ → ℚ) (t : Transcript) (o : ClipOptions)
    (hvalid : o.timeStartSec < o.timeEndSec) (hmax : -5 ≤ (resolveDurations o).2) :
    ((suggestClips rand t o).map (fun c => c.startSec)).Pairwise (· ≤ ·) ∧
    (suggestClips rand t o).Pairwise
      (fun a b => ¬ (a.startSec < b.endSec ∧ b.startSec < a.endSec)) := by
  have hp := suggestClipsAux_pairwise t o (resolveDurations o).1 (resolveDurations o).2
    rand hmax 10 o.timeStartSec 0 0
  constructor
  · rw [List.pairwise_map]
    exact hp.imp (fun h => h.1)
  · exact hp.imp (fun h hlt => absurd hlt.2 (not_lt.mpr h.2))

/-- Witness for the amended C1: the short preset over the valid window
`[0, 100)`. -/
theorem C1_amended_witness :
    (oW.timeStartSec < oW.timeEndSec ∧ -5 ≤ (resolveDurations oW).2) ∧
    (((suggestClips rHalf tW oW).map (fun c => c.startSec)).Pairwise (· ≤ ·) ∧
     (suggestClips rHalf tW oW).Pairwise
       (fun a b => ¬ (a.startSec < b.endSec ∧ b.startSec < a.endSec))) := by
  have h1 : oW.timeStartSec < oW.timeEndSec := by
    apply of_decide_eq_true
    with_unfolding_all rfl
  have h2 : -5 ≤ (resolveDurations oW).2 := by
    apply of_decide_eq_true
    with_unfolding_all rfl
  exact ⟨⟨h1, h2⟩, C1_amended_sorted_nonoverlap rHalf tW oW h1 h2⟩

/-- C2 counterexample: the short preset over the window `[0, 3)` (shorter
than `minDur = 10`) emits a single clip `[0, 10)`, which does NOT span the
whole window and whose end lies outside the job's time window — the
duration is clamped up to `minDur`, overshooting the window end. -/
theorem C2_counterexample :
    (resolveDurations oC2).1 = 10 ∧ oC2.timeEndSec = 3 ∧
    ((suggestClips rHalf tC2 oC2).map (fun c => c.endSec)) = [10] ∧
    ¬ (∀ c ∈ suggestClips rHalf tC2 oC2, c.endSec ≤ oC2.timeEndSec) := by
  apply of_decide_eq_true
  with_unfolding_all rfl

/-- C2 amended: whenever `0 < minDur ≤ maxDur`, every emitted clip has
`minDur ≤ duration ≤ maxDur` with NO exception; its start lies within the
job's window, but its end — always `start + duration` — may exceed the
window end, bounded by `max(windowEnd, start + minDur)`.  A window shorter
than `minDur` yields at most one clip, of duration exactly `minDur`,
overshooting the window end rather than spanning the window. -/
theorem C2_amended_duration_band (rand : ℕ → ℚ) (t : Transcript) (o : ClipOptions)
    (hpos : 0 < (resolveDurations o).1)
    (hband : (resolveDurations o).1 ≤ (resolveDurations o).2) :
    (∀ c ∈ suggestClips rand t o,
      (resolveDurations o).1 ≤ c.durationSec ∧
      c.durationSec ≤ (resolveDurations o).2 ∧
      o.timeStartSec ≤ c.startSec ∧ c.startSec < o.timeEndSec ∧
      c.endSec = c.startSec + c.durationSec ∧
      c.endSec ≤ max o.timeEndSec (c.startSec + (resolveDurations o).1)) ∧
    (o.timeEndSec - o.timeStartSec < (resolveDurations o).1 →
      (suggestClips rand t o).length ≤ 1) := by
  constructor
  · intro c hc
    obtain ⟨hlt, hdur, hend⟩ :=
      suggestClipsAux_shape t o (resolveDurations o).1 (resolveDurations o).2 rand 10
        o.timeStartSec 0 0 c hc
    have hge : o.timeStartSec ≤ c.startSec :=
      suggestClipsAux_start_ge t o (resolveDurations o).1 (resolveDurations o).2 rand
        (by linarith) 10 o.timeStartSec 0 0 c hc
    refine ⟨?_, ?_, hge, hlt, hend, ?_⟩
    · rw [hdur]
      exact le_min hband (le_max_left _ _)
    · rw [hdur]
      exact min_le_left _ _
    · rw [hend, hdur]
      rcases le_or_lt (o.timeEndSec - c.startSec) (resolveDurations o).1 with h | h
      · rw [max_eq_left h]
        have hmr : min (resolveDurations o).2 (resolveDurations o).1 ≤
            (resolveDurations o).1 := min_le_right _ _
        exact le_trans (by linarith) (le_max_right _ _)
      · rw [max_eq_right (le_of_lt h)]
        have hmr : min (resolveDurations o).2 (o.timeEndSec - c.startSec) ≤
            o.timeEndSec - c.startSec := min_le_right _ _
        exact le_trans (by linarith) (le_max_left _ _)
  · intro hshort
    exact suggestClipsAux_length_le_one t o (resolveDurations o).1 (resolveDurations o).2
      rand 9 o.timeStartSec 0 0 hshort hband

/-- Witness for the amended C2: the short preset over `[0, 100)`. -/
theorem C2_amended_witness :
    (0 < (resolveDurations oW).1 ∧ (resolveDurations oW).1 ≤ (resolveDurations oW).2) ∧
    ((∀ c ∈ suggestClips rHalf tW oW,
        (resolveDurations oW).1 ≤ c.durationSec ∧
        c.durationSec ≤ (resolveDurations oW).2 ∧
        oW.timeStartSec ≤ c.startSec ∧ c.startSec < oW.timeEndSec ∧
        c.endSec = c.startSec + c.durationSec ∧
        c.endSec ≤ max oW.timeEndSec (c.startSec + (resolveDurations oW).1)) ∧
     (oW.timeEndSec - oW.timeStartSec < (resolveDurations oW).1 →
        (suggestClips rHalf tW oW).length ≤ 1)) := by
  have h1 : 0 < (resolveDurations oW).1 := by
    apply of_decide_eq_true
    with_unfolding_all rfl
  have h2 : (resolveDurations oW).1 ≤ (resolveDurations oW).2 := by
    apply of_decide_eq_true
    with_unfolding_all rfl
  exact ⟨⟨h1, h2⟩, C2_amended_duration_band rHalf tW oW h1 h2⟩

/-- C5 counterexample: with window `[10, 40)` the emitted clip is
`[10, 35)` and the transcript segment `[0, 100)` becomes its caption with
its ORIGINAL absolute coordinates: `caption.start = 0 < 10 = clip.start`
(and `caption.end = 100 > 35 = clip.end`) — captions are neither clamped
to the clip window nor projected onto the clip's own coordinate space. -/
theorem C5_counterexample :
    cW5 ∈ suggestClips rHalf tC5 oC5 ∧ capW5 ∈ cW5.captions ∧
    capW5.startSec = 0 ∧ cW5.startSec = 10 ∧
    ¬ (capW5.startSec ≥ cW5.startSec ∧ capW5.endSec ≤ cW5.endSec) := by
  apply of_decide_eq_true
  with_unfolding_all rfl

/-- C5 amended: each caption of an emitted clip is some transcript segment
verbatim (absolute coordinates, no projection), and it satisfies only the
overlap test `caption.start < clip.end ∧ caption.end > clip.start` — it
may extend outside the clip window on either side. -/
theorem C5_amended_captions_overlap (rand : ℕ → ℚ) (t : Transcript) (o : ClipOptions)
    (c : GeneratedClip) (cap : Caption)
    (hc : c ∈ suggestClips rand t o) (hcap : cap ∈ c.captions) :
    (∃ seg ∈ t.segments,
      cap.startSec = seg.startSec ∧ cap.endSec = seg.endSec ∧ cap.text = seg.text) ∧
    cap.startSec < c.endSec ∧ cap.endSec > c.startSec := by
  obtain ⟨seg, hseg, h1, h2, h3, h4, h5⟩ :=
    suggestClipsAux_captions t o (resolveDurations o).1 (resolveDurations o).2 rand 10
      o.timeStartSec 0 0 c hc cap hcap
  refine ⟨⟨seg, hseg, h1, h2, h3⟩, ?_, ?_⟩
  · rw [h1]; exact h4
  · rw [h2]; exact h5

/-- Witness for the amended C5 at the concrete clip `cW5` and caption
`capW5`. -/
theorem C5_amended_witness :
    (cW5 ∈ suggestClips rHalf tC5 oC5 ∧ capW5 ∈ cW5.captions) ∧
    ((∃ seg ∈ tC5.segments,
        capW5.startSec = seg.startSec ∧ capW5.endSec = seg.endSec ∧
        capW5.text = seg.text) ∧
     capW5.startSec < cW5.endSec ∧ capW5.endSec > cW5.startSec) := by
  have hm1 : cW5 ∈ suggestClips rHalf tC5 oC5 := by
    apply of_decide_eq_true
    with_unfolding_all rfl
  have hm2 : capW5 ∈ cW5.captions := by
    apply of_decide_eq_true
    with_unfolding_all rfl
  exact ⟨⟨hm1, hm2⟩, C5_amended_captions_overlap rHalf tC5 oC5 cW5 capW5 hm1 hm2⟩

/-- C3: a job whose window yields zero overlapping transcript segments
runs to completion with an empty clip list and no failure — but its
status is still `processing`, not `ready`: no code path in
`processVideoAsync` (or anywhere else) ever updates a job's status. -/
theorem C3_status_never_ready :
    runC3.2 = .completed ∧
    getClipsByJobId runC3.1 "job-1" = [] ∧
    (getJob runC3.1 "job-1").map (fun j => j.status) = some "processing" ∧
    ¬ (getJob runC3.1 "job-1").map (fun j => j.status) = some "ready" := by
  apply of_decide_eq_true
  with_unfolding_all rfl

/-- C4: when a stage fails (here: the audio-extraction ffmpeg run errors),
the failure is caught locally and later stages are skipped (the store is
untouched), and it does not propagate — but the job is NOT transitioned
to `failed` and no reason is recorded: the catch block only logs
(`// TODO: update job status to failed`), leaving status `processing`. -/
theorem C4_failure_only_logged :
    runC4.2 = .caught "Failed to extract audio: boom" ∧
    runC4.1 = createJob dbEmpty jobRow1 ∧
    (getJob runC4.1 "job-1").map (fun j => j.status) = some "processing" ∧
    ¬ (getJob runC4.1 "job-1").map (fun j => j.status) = some "failed" := by
  apply of_decide_eq_true
  with_unfolding_all rfl

/-- C6 counterexample: the download route has no per-clip lock.  In the
interleaving where both requests pass the cache check before either
encode finishes — which is exactly what the Node event loop produces for
two requests arriving while the first encode is in flight — BOTH requests
invoke the encoder: 2 encode invocations, not 1 (though both do end up
streaming the same artifact path). -/
theorem C6_counterexample :
    (runRender "clip-1" [0, 1, 0, 1]).encodes = 2 ∧
    (runRender "clip-1" [0, 1, 0, 1]).phase0 = .finished (renderOutputPath "clip-1") ∧
    (runRender "clip-1" [0, 1, 0, 1]).phase1 = .finished (renderOutputPath "clip-1") ∧
    ¬ (runRender "clip-1" [0, 1, 0, 1]).encodes = 1 := by decide

/-- C6 amended: deduplication happens only sequentially — a request whose
cache check runs after a prior render has recorded `clipFilePath` reuses
the artifact without encoding (1 encode total, both callers observing the
same artifact); two requests whose cache checks both precede the encodes
each invoke the encoder. -/
theorem C6_amended_sequential_dedup :
    (runRender "clip-1" [0, 0, 1]).encodes = 1 ∧
    (runRender "clip-1" [0, 0, 1]).clipFilePath = some (renderOutputPath "clip-1") ∧
    (runRender "clip-1" [0, 0, 1]).phase0 = .finished (renderOutputPath "clip-1") ∧
    (runRender "clip-1" [0, 0, 1]).phase1 = .finished (renderOutputPath "clip-1") := by decide

/-- C7 counterexample: `extractAudio` is not bounded to the job's time
window and does not fail on a degenerate window.  The ffmpeg command it
builds carries no seek/duration options (the window is not even a
parameter of the function), and with a degenerate window
(`start = end = 5`) the pipeline's extraction step succeeds and the run
completes instead of failing with `ExtractionFailed`. -/
theorem C7_counterexample :
    oDeg.timeStartSec ≥ oDeg.timeEndSec ∧
    (extractAudioCmd "v.mp4" "temp/audio/job-1.mp3").seekInput = none ∧
    (extractAudioCmd "v.mp4" "temp/audio/job-1.mp3").duration = none ∧
    extractAudio (Except.ok ()) "v.mp4" "temp/audio/job-1.mp3"
      = Except.ok "temp/audio/job-1.mp3" ∧
    runDeg.2 = .completed := by
  apply of_decide_eq_true
  with_unfolding_all rfl

/-- C7 amended: `extractAudio` derives the FULL audio track — its ffmpeg
command has no seek or duration bound and the time window is not among
its inputs — and it fails (with the `Failed to extract audio` message)
exactly when the ffmpeg run itself errors, never because of the window. -/
theorem C7_amended_full_audio_no_window (inputPath outputPath : String) :
    (extractAudioCmd inputPath outputPath).seekInput = none ∧
    (extractAudioCmd inputPath outputPath).duration = none ∧
    extractAudio (Except.ok ()) inputPath outputPath = Except.ok outputPath ∧
    (∀ msg, extractAudio (Except.error msg) inputPath outputPath =
      Except.error ("Failed to extract audio: " ++ msg)) :=
  ⟨rfl, rfl, rfl, fun _ => rfl⟩

end AVC
